import Mathlib

/-!
Verification of the quota-aware delegation core (quota_tracker.py,
usage_logger.py, delegation_executor.py) via a shallow embedding.

Conventions of the embedding:
  - Python datetimes are modelled as integer epoch seconds (`ℤ`); the
    microsecond component of a datetime plays no role in any claim.
  - Python timedelta semantics: for a difference `delta : ℤ` seconds, the
    normalised `.days` component is `delta.fdiv 86400` and the normalised
    `.seconds` component is `delta % 86400` (Lean's `%` on `ℤ` is Euclidean
    mod, always in `[0, 86400)`, matching Python's normalisation).
  - Python float ratios (quota percentages) are modelled as exact rationals
    `ℚ`; the thresholds 0.8 and 0.95 become `8/10` and `95/100`.
  - File-system effects are made explicit: readers take the stored state as
    an argument, writers return the new state; a fallible write is modelled
    by a Boolean fault flag and an `Except` result where the source's
    exception behaviour matters.
-/

namespace Conjure

/-! ## quota_tracker.py -/

/-- Quota limits dictionary (quota_tracker.py `DEFAULT_LIMITS` keys). -/
structure QuotaLimits where
  requests_per_minute : ℕ
  requests_per_day : ℕ
  tokens_per_minute : ℕ
  tokens_per_day : ℕ
deriving DecidableEq

/-- quota_tracker.py `DEFAULT_LIMITS` (Gemini free-tier defaults). -/
def DEFAULT_LIMITS : QuotaLimits :=
  { requests_per_minute := 60
    requests_per_day := 1000
    tokens_per_minute := 32000
    tokens_per_day := 1000000 }

/-- quota_tracker.py `WARN_THRESHOLD = 0.8`. -/
def WARN_THRESHOLD : ℚ := 8 / 10

/-- quota_tracker.py `CRITICAL_THRESHOLD = 0.95`. -/
def CRITICAL_THRESHOLD : ℚ := 95 / 100

/-- One element of `usage_data["requests"]`: the dict written by
`record_request` (timestamp, tokens, success). -/
structure RequestRecord where
  timestamp : ℤ
  tokens : ℕ
  success : Bool
deriving DecidableEq

/-- The persisted usage structure of `GeminiQuotaTracker`
(`requests`, `daily_tokens`, `last_reset`). -/
structure UsageData where
  requests : List RequestRecord
  daily_tokens : ℕ
  last_reset : ℤ
deriving DecidableEq

namespace GeminiQuotaTracker

/-- `GeminiQuotaTracker._cleanup_old_data`: drops requests older than 24 h
and resets the daily counter when `(now - last_reset).days >= 1`.
Python's `timedelta.days` is floor division of the total seconds by 86400,
i.e. `Int.fdiv`. -/
def cleanup_old_data (data : UsageData) (now : ℤ) : UsageData :=
  let cutoff : ℤ := now - 24 * 3600
  let requests := data.requests.filter (fun req => cutoff < req.timestamp)
  if 1 ≤ (now - data.last_reset).fdiv 86400 then
    { requests := requests, daily_tokens := 0, last_reset := now }
  else
    { requests := requests
      daily_tokens := data.daily_tokens
      last_reset := data.last_reset }

/-- `GeminiQuotaTracker.record_request`: appends the request record and adds
`estimated_tokens` to `daily_tokens` only when `success` is true.  (The
trailing `_save_usage_data` write is a side effect on disk that does not
change the returned state and is not modelled here.) -/
def record_request (data : UsageData) (now : ℤ) (estimated_tokens : ℕ)
    (success : Bool) : UsageData :=
  let request_data : RequestRecord :=
    { timestamp := now, tokens := estimated_tokens, success := success }
  { requests := data.requests ++ [request_data]
    daily_tokens :=
      data.daily_tokens + (if success then estimated_tokens else 0)
    last_reset := data.last_reset }

/-- Result of `GeminiQuotaTracker.get_current_usage`. -/
structure CurrentUsage where
  requests_last_minute : ℕ
  tokens_last_minute : ℕ
  daily_tokens : ℕ
  requests_today : ℕ
deriving DecidableEq

/-- `GeminiQuotaTracker.get_current_usage`: counts requests newer than one
minute ago and sums their tokens. -/
def get_current_usage (data : UsageData) (now : ℤ) : CurrentUsage :=
  let one_minute_ago : ℤ := now - 60
  let recent_requests :=
    data.requests.filter (fun req => one_minute_ago < req.timestamp)
  { requests_last_minute := recent_requests.length
    tokens_last_minute := (recent_requests.map (fun req => req.tokens)).sum
    daily_tokens := data.daily_tokens
    requests_today := data.requests.length }

/-- The warning messages `get_quota_status` can append, with the numbers the
source interpolates into each format string:
  - `rpm actual limit`   = "Request rate: {actual}\x7b/\x7d{limit} per minute"
  - `tpm actual limit`   = "Token rate: {actual}/{limit} per minute"
  - `dailyTokens c l p`  = "Daily tokens: {c}/{l} ({p})"
  - `dailyRequests c l p` = "Daily requests: {c}/{l} ({p})"
  - `criticalRate`       = "IMMEDIATE: Approaching rate limits! ..."
  - `criticalDaily`      = "CRITICAL: Daily quota nearly exhausted! ..." -/
inductive Warning where
  | rpm (actual limit : ℕ)
  | tpm (actual limit : ℕ)
  | dailyTokens (current limit : ℕ) (pct : ℚ)
  | dailyRequests (current limit : ℕ) (pct : ℚ)
  | criticalRate
  | criticalDaily
deriving DecidableEq

/-- `GeminiQuotaTracker.get_quota_status`: mirrors the sequential mutation of
`status` and `warnings` in the source; each `s_i` is the value of `status`
after the i-th `if`, and the warnings list is the concatenation of the
conditional appends in source order.  Ratios are exact rationals. -/
def get_quota_status (limits : QuotaLimits) (data : UsageData) (now : ℤ) :
    String × List Warning :=
  let usage := get_current_usage data now
  let rpm_usage : ℚ :=
    (usage.requests_last_minute : ℚ) / (limits.requests_per_minute : ℚ)
  let tpm_usage : ℚ :=
    (usage.tokens_last_minute : ℚ) / (limits.tokens_per_minute : ℚ)
  let daily_tokens_usage : ℚ :=
    (usage.daily_tokens : ℚ) / (limits.tokens_per_day : ℚ)
  let daily_requests_usage : ℚ :=
    (usage.requests_today : ℚ) / (limits.requests_per_day : ℚ)
  let s0 := "[OK] Healthy"
  let s1 := if WARN_THRESHOLD < rpm_usage then "[WARNING] High RPM" else s0
  let w1 : List Warning :=
    if WARN_THRESHOLD < rpm_usage then
      [Warning.rpm usage.requests_last_minute limits.requests_per_minute]
    else []
  let s2 :=
    if WARN_THRESHOLD < tpm_usage then
      (if s1 = "[OK] Healthy" then "[WARNING] High TPM" else s1)
    else s1
  let w2 : List Warning :=
    if WARN_THRESHOLD < tpm_usage then
      [Warning.tpm usage.tokens_last_minute limits.tokens_per_minute]
    else []
  let s3 :=
    if WARN_THRESHOLD < daily_tokens_usage then
      "[WARNING] Daily Token Warning"
    else s2
  let w3 : List Warning :=
    if WARN_THRESHOLD < daily_tokens_usage then
      [Warning.dailyTokens usage.daily_tokens limits.tokens_per_day
        daily_tokens_usage]
    else []
  let s4 :=
    if WARN_THRESHOLD < daily_requests_usage then
      "[WARNING] Daily Request Warning"
    else s3
  let w4 : List Warning :=
    if WARN_THRESHOLD < daily_requests_usage then
      [Warning.dailyRequests usage.requests_today limits.requests_per_day
        daily_requests_usage]
    else []
  let s5 :=
    if CRITICAL_THRESHOLD < rpm_usage ∨ CRITICAL_THRESHOLD < tpm_usage then
      "[CRITICAL] Rate Limit Soon"
    else s4
  let w5 : List Warning :=
    if CRITICAL_THRESHOLD < rpm_usage ∨ CRITICAL_THRESHOLD < tpm_usage then
      [Warning.criticalRate]
    else []
  let s6 :=
    if CRITICAL_THRESHOLD < daily_tokens_usage ∨
        CRITICAL_THRESHOLD < daily_requests_usage then
      "[CRITICAL] Daily Quota Exhausted"
    else s5
  let w6 : List Warning :=
    if CRITICAL_THRESHOLD < daily_tokens_usage ∨
        CRITICAL_THRESHOLD < daily_requests_usage then
      [Warning.criticalDaily]
    else []
  (s6, w1 ++ w2 ++ w3 ++ w4 ++ w5 ++ w6)

/-- `GeminiQuotaTracker.can_handle_task`: the `if/elif` chain of deny
conditions; the first true condition contributes its issue string.  The
`- 1` in the rate condition is Python integer subtraction, hence `ℤ`. -/
def can_handle_task (limits : QuotaLimits) (data : UsageData) (now : ℤ)
    (estimated_tokens : ℕ) : Bool × List String :=
  let usage := get_current_usage data now
  if (limits.requests_per_minute : ℤ) - 1 ≤ (usage.requests_last_minute : ℤ)
  then
    (false, ["Request rate limit reached - wait 1 minute"])
  else if limits.tokens_per_minute <
      usage.tokens_last_minute + estimated_tokens then
    (false, ["Token rate limit would be exceeded - wait or split task"])
  else if limits.tokens_per_day <
      usage.daily_tokens + estimated_tokens then
    (false, ["Daily token quota would be exceeded - wait for reset"])
  else
    (true, [])

end GeminiQuotaTracker

/-! ## usage_logger.py -/

/-- usage_logger.py `SESSION_TIMEOUT_SECONDS = 3600`. -/
def SESSION_TIMEOUT_SECONDS : ℤ := 3600

/-- Python `timedelta.seconds` of a difference of `delta` whole seconds:
timedeltas are normalised so that `seconds ∈ [0, 86400)` while `days`
absorbs the rest (and the sign).  Lean's `%` on `ℤ` (Euclidean mod) has
exactly this range for the positive modulus 86400. -/
def timedelta_seconds (delta : ℤ) : ℤ := delta % 86400

/-- Contents of `current_session.json` as read and written by the logger;
the three counters are absent until `_update_session_stats` first writes
them, which `int(session_data.get(..., 0))` treats as 0. -/
structure SessionData where
  session_id : String
  start_time : ℤ
  last_activity : ℤ
  total_requests : ℕ := 0
  total_tokens : ℕ := 0
  successful_requests : ℕ := 0
deriving DecidableEq

/-- usage_logger.py `UsageEntry` dataclass. -/
structure UsageEntry where
  command : String
  estimated_tokens : ℕ
  actual_tokens : Option ℕ := none
  success : Bool := true
  duration : Option ℚ := none
  error : Option String := none
deriving DecidableEq

/-- One line of `usage.jsonl` as written by `GeminiUsageLogger.log_usage`. -/
structure LogRecord where
  timestamp : ℤ
  command : String
  estimated_tokens : ℕ
  actual_tokens : ℕ
  success : Bool
  duration_seconds : Option ℚ
  error : Option String
  session_id : String
deriving DecidableEq

/-- The logger's file-backed state: the `usage.jsonl` lines and the
`current_session.json` contents (`none` when the file is absent or
unreadable). -/
structure LoggerState where
  usageLog : List LogRecord
  session : Option SessionData
deriving DecidableEq

namespace GeminiUsageLogger

/-- `GeminiUsageLogger._get_session_id`: reuses the stored session id when
`(now - last_activity).seconds < SESSION_TIMEOUT_SECONDS` (note Python's
`.seconds`, not `.total_seconds()`), otherwise creates and writes a fresh
session named after the current epoch second.  Returns the id together
with the session file written (or `none` when nothing was written). -/
def get_session_id (stored : Option SessionData) (now : ℤ) :
    String × Option SessionData :=
  match stored with
  | some session_data =>
    if timedelta_seconds (now - session_data.last_activity) <
        SESSION_TIMEOUT_SECONDS then
      (session_data.session_id, none)
    else
      let session_id := "session_" ++ toString now
      (session_id,
        some { session_id := session_id, start_time := now
               last_activity := now })
  | none =>
    let session_id := "session_" ++ toString now
    (session_id,
      some { session_id := session_id, start_time := now
             last_activity := now })

/-- The `actual_tokens` field written into a log entry:
`entry.actual_tokens or entry.estimated_tokens` — Python's `or` falls back
on `None` and on the falsy value 0. -/
def actualTokensOf (entry : UsageEntry) : ℕ :=
  match entry.actual_tokens with
  | some actual => if actual = 0 then entry.estimated_tokens else actual
  | none => entry.estimated_tokens

/-- `GeminiUsageLogger._update_session_stats` applied to a session read back
from disk: bumps the counters and stamps `last_activity` with the entry's
timestamp. -/
def update_session_stats (session_data : SessionData) (log_rec : LogRecord) :
    SessionData :=
  { session_data with
    last_activity := log_rec.timestamp
    total_requests := session_data.total_requests + 1
    total_tokens := session_data.total_tokens + log_rec.actual_tokens
    successful_requests :=
      session_data.successful_requests + (if log_rec.success then 1 else 0) }

/-- `GeminiUsageLogger.log_usage`: builds the log entry (calling
`_get_session_id`, whose session-file write is assumed to succeed), then
appends it to `usage.jsonl` — a write **not** guarded by any try/except, so
a failure there (`appendFails`) propagates as an exception — and finally
runs `_update_session_stats`, whose entire body is inside a try/except that
swallows persistence failures (`statsFails` leaves the session file as it
was).  The error value stands for the uncaught Python exception. -/
def log_usage (st : LoggerState) (entry : UsageEntry) (now : ℤ)
    (appendFails : Bool) (statsFails : Bool) :
    Except String LoggerState :=
  let idAndWrite := get_session_id st.session now
  let sessionAfterGet : Option SessionData :=
    match idAndWrite.2 with
    | some fresh => some fresh
    | none => st.session
  let log_entry : LogRecord :=
    { timestamp := now
      command := entry.command
      estimated_tokens := entry.estimated_tokens
      actual_tokens := actualTokensOf entry
      success := entry.success
      duration_seconds := entry.duration
      error := entry.error
      session_id := idAndWrite.1 }
  if appendFails then
    Except.error "failed to write usage.jsonl"
  else
    let usageLog := st.usageLog ++ [log_entry]
    let session : Option SessionData :=
      if statsFails then sessionAfterGet
      else
        match sessionAfterGet with
        | some session_data => some (update_session_stats session_data log_entry)
        | none => none
    Except.ok { usageLog := usageLog, session := session }

/-- Result of `GeminiUsageLogger.get_usage_summary`.  The early return for
a missing log file carries no `successful_requests` and no `hours_analyzed`
key, hence the `Option`s. -/
structure UsageSummary where
  total_requests : ℕ
  total_tokens : ℕ
  successful_requests : Option ℕ
  success_rate : ℚ
  hours_analyzed : Option ℕ
deriving DecidableEq

/-- `GeminiUsageLogger.get_usage_summary`: when the log file is missing
returns the zero summary; otherwise counts the records whose timestamp is
at least `now - hours*3600` (the source's line-by-line accumulation is the
filter-and-count below; every record written by `log_usage` parses and has
all fields). -/
def get_usage_summary (fileExists : Bool) (records : List LogRecord)
    (now : ℤ) (hours : ℕ) : UsageSummary :=
  if !fileExists then
    { total_requests := 0, total_tokens := 0, successful_requests := none
      success_rate := 0, hours_analyzed := none }
  else
    let cutoff_time : ℤ := now - hours * 3600
    let inWindow := records.filter (fun rec => cutoff_time ≤ rec.timestamp)
    let total_requests := inWindow.length
    let total_tokens := (inWindow.map (fun r => r.actual_tokens)).sum
    let successful_requests := inWindow.countP (fun rec => rec.success)
    let success_rate : ℚ :=
      if 0 < total_requests then
        (successful_requests : ℚ) / (total_requests : ℚ) * 100
      else 0
    { total_requests := total_requests
      total_tokens := total_tokens
      successful_requests := some successful_requests
      success_rate := success_rate
      hours_analyzed := some hours }

end GeminiUsageLogger

/-! ## delegation_executor.py -/

/-- delegation_executor.py `ServiceConfig` dataclass; `quota_limits` is the
optional limits dictionary, kept as an association list. -/
structure ServiceConfig where
  name : String
  command : String
  auth_method : String
  auth_env_var : Option String := none
  quota_limits : Option (List (String × ℕ)) := none
deriving DecidableEq

/-- The `gemini` entry of `Delegator.SERVICES`. -/
def gemini_service : ServiceConfig :=
  { name := "gemini", command := "gemini", auth_method := "api_key"
    auth_env_var := some "GEMINI_API_KEY"
    quota_limits := some
      [("requests_per_minute", 60), ("requests_per_day", 1000),
       ("tokens_per_day", 1000000)] }

/-- The `qwen` entry of `Delegator.SERVICES`. -/
def qwen_service : ServiceConfig :=
  { name := "qwen", command := "qwen", auth_method := "cli"
    auth_env_var := none
    quota_limits := some
      [("requests_per_minute", 120), ("requests_per_day", 2000),
       ("tokens_per_day", 2000000)] }

/-- delegation_executor.py `ExecutionResult` dataclass (duration as an
exact rational number of seconds). -/
structure ExecutionResult where
  success : Bool
  stdout : String
  stderr : String
  exit_code : ℤ
  duration : ℚ
  tokens_used : Option ℕ := none
  service : Option String := none
deriving DecidableEq

/-- What the file system holds at one path handed to the executor.
`missing` covers both a non-existent path and one whose `stat` raises
`OSError` (the source skips either, contributing zero bytes and no
`@`-reference).  A directory is summarised by the (suffix, byte-size)
pairs of the regular files below it, as enumerated by `rglob`/listing. -/
inductive PathInfo where
  | missing
  | file (size : ℕ)
  | dir (entries : List (String × ℕ))
deriving DecidableEq

/-- Options dictionary accepted by `build_command`. -/
structure DelegOptions where
  model : Option String := none
  output_format : Option String := none
  temperature : Option ℚ := none
deriving DecidableEq

/-- One line of the delegator's `usage.jsonl` as written by
`Delegator.log_usage`. -/
structure DLogEntry where
  timestamp : ℤ
  service : String
  command : String
  success : Bool
  duration : ℚ
  tokens_used : Option ℕ
  exit_code : ℤ
  error : Option String
deriving DecidableEq

namespace Delegator

/-- File suffixes counted when estimating a directory
(`Delegator.estimate_tokens`). -/
def dir_suffixes : List String := [".py", ".js", ".ts", ".rs", ".md", ".txt"]

/-- Byte contribution of one path in `Delegator.estimate_tokens`. -/
def pathChars (info : PathInfo) : ℕ :=
  match info with
  | .missing => 0
  | .file size => size
  | .dir entries =>
    ((entries.filter (fun fe => dir_suffixes.contains fe.1)).map
      (fun fe => fe.2)).sum

/-- `Delegator.estimate_tokens`: prompt length plus the byte sizes of the
given files (whole size for a regular file; for a directory, the sizes of
the contained files with a recognised suffix), floor-divided by 4. -/
def estimate_tokens (files : List (String × PathInfo)) (prompt : String) :
    ℕ :=
  (prompt.length + (files.map (fun f => pathChars f.2)).sum) / 4

/-- The `@`-reference `build_command` emits for one path, if any: existing
files get `@path`, existing directories get `@path/**/*`, anything else is
silently omitted. -/
def fileRef (f : String × PathInfo) : Option String :=
  match f.2 with
  | .file _ => some ("@" ++ f.1)
  | .dir _ => some ("@" ++ f.1 ++ "/**/*")
  | .missing => none

/-- `Delegator.build_command`: the service command, the table-driven option
flags (`--output-format` for gemini, `--format` for qwen), then `-p` with
the prompt prefixed by the `@`-references of the existing files. -/
def build_command (service : ServiceConfig) (service_name : String)
    (prompt : String) (files : List (String × PathInfo))
    (options : DelegOptions) : List String :=
  let command := [service.command]
  let command := command ++
    (match options.model with
     | some m => ["--model", m]
     | none => [])
  let command := command ++
    (match options.output_format with
     | some fmt =>
       if service_name = "gemini" then ["--output-format", fmt]
       else if service_name = "qwen" then ["--format", fmt]
       else []
     | none => [])
  let command := command ++
    (match options.temperature with
     | some t => ["--temperature", toString t]
     | none => [])
  let file_refs := files.filterMap fileRef
  let full_prompt :=
    if file_refs = [] then prompt
    else String.intercalate " " file_refs ++ " " ++ prompt
  command ++ ["-p", full_prompt]

/-- `Delegator.log_usage`: builds the log entry and appends it inside a
`try/except Exception` — a failing write (`writeFails`) is caught and
swallowed, leaving the log file unchanged, so the function always returns
normally. -/
def log_usage (log : List DLogEntry) (service_name : String)
    (command : List String) (result : ExecutionResult) (now : ℤ)
    (writeFails : Bool) : Except String (List DLogEntry) :=
  let log_entry : DLogEntry :=
    { timestamp := now
      service := service_name
      command := String.intercalate " " command
      success := result.success
      duration := result.duration
      tokens_used := result.tokens_used
      exit_code := result.exit_code
      error := if result.success then none else some result.stderr }
  let attempt : Except String (List DLogEntry) :=
    if writeFails then Except.error "failed to write usage.jsonl"
    else Except.ok (log ++ [log_entry])
  match attempt with
  | Except.ok newLog => Except.ok newLog
  | Except.error _ => Except.ok log

/-- How the child process spawned by `Delegator.execute` behaves: it either
completes (with captured stdout/stderr and a return code), exceeds the
wall-clock timeout (`subprocess.TimeoutExpired`), or the invocation raises
some other exception. -/
inductive ChildOutcome where
  | completed (stdout stderr : String) (returncode : ℤ)
  | timedOut
  | raised (message : String)
deriving DecidableEq

/-- `Delegator.execute`: builds the command and runs the child process.
On completion it assembles the result (success iff return code 0, tokens
estimated by `estimate_tokens`), calls `log_usage` once, and returns; the
`TimeoutExpired` branch synthesises a failure with exit code 124 and the
generic exception branch one with exit code 1, and both return **without**
calling `log_usage`.  Returns the result, the usage log after the call,
and the number of `log_usage` calls performed. -/
def execute (log : List DLogEntry) (service : ServiceConfig)
    (service_name : String) (prompt : String)
    (files : List (String × PathInfo)) (options : DelegOptions)
    (timeout : ℕ) (outcome : ChildOutcome) (now : ℤ) (duration : ℚ)
    (writeFails : Bool) : ExecutionResult × List DLogEntry × ℕ :=
  let command := build_command service service_name prompt files options
  match outcome with
  | .completed stdout stderr returncode =>
    let success := returncode == 0
    let tokens_used := estimate_tokens files prompt
    let execution_result : ExecutionResult :=
      { success := success, stdout := stdout, stderr := stderr
        exit_code := returncode, duration := duration
        tokens_used := some tokens_used, service := some service_name }
    let logAfter :=
      match log_usage log service_name command execution_result now
          writeFails with
      | Except.ok newLog => newLog
      | Except.error _ => log
    (execution_result, logAfter, 1)
  | .timedOut =>
    ({ success := false, stdout := ""
       stderr := "Command timed out after " ++ toString timeout ++ " seconds"
       exit_code := 124, duration := duration
       tokens_used := none, service := some service_name }, log, 0)
  | .raised message =>
    ({ success := false, stdout := "", stderr := message
       exit_code := 1, duration := duration
       tokens_used := none, service := some service_name }, log, 0)

/-- Per-service statistics in `Delegator.get_usage_summary`
(`_init_service_stats` / `_update_service_stats`), with the rate fields
added by `_calculate_rates`. -/
structure ServiceStats where
  requests : ℕ
  successful : ℕ
  tokens_used : ℕ
  total_duration : ℚ
  success_rate : ℚ := 0
  avg_duration : ℚ := 0
deriving DecidableEq

/-- `Delegator._init_service_stats`. -/
def init_service_stats : ServiceStats :=
  { requests := 0, successful := 0, tokens_used := 0, total_duration := 0 }

/-- One increment of `Delegator._update_service_stats` on a stats entry. -/
def bump_service_stats (stats : ServiceStats) (entry : DLogEntry) :
    ServiceStats :=
  { stats with
    requests := stats.requests + 1
    successful := stats.successful + (if entry.success then 1 else 0)
    tokens_used := stats.tokens_used + entry.tokens_used.getD 0
    total_duration := stats.total_duration + entry.duration }

/-- `Delegator._update_service_stats`: inserts the service with empty stats
when absent, then bumps its counters. -/
def update_service_stats (services : List (String × ServiceStats))
    (entry : DLogEntry) : List (String × ServiceStats) :=
  let services :=
    if (services.lookup entry.service).isNone then
      services ++ [(entry.service, init_service_stats)]
    else services
  services.map (fun svc =>
    if svc.1 = entry.service then (svc.1, bump_service_stats svc.2 entry)
    else svc)

/-- Result of `Delegator.get_usage_summary`.  The early return for a
missing log file has no `successful_requests` key, hence the `Option`. -/
structure DSummary where
  total_requests : ℕ
  successful_requests : Option ℕ
  services : List (String × ServiceStats)
  success_rate : ℚ
deriving DecidableEq

/-- `Delegator._calculate_rates` applied to one service's stats. -/
def calculate_service_rates (stats : ServiceStats) : ServiceStats :=
  { stats with
    success_rate :=
      if 0 < stats.requests then
        (stats.successful : ℚ) / (stats.requests : ℚ) * 100
      else 0
    avg_duration :=
      if 0 < stats.requests then stats.total_duration / (stats.requests : ℚ)
      else 0 }

/-- `Delegator.get_usage_summary`: zero summary when the log file is
missing; otherwise counts the entries whose timestamp is at least
`now - days*86400`, accumulates per-service statistics over them in order,
and finally computes the rates. -/
def get_usage_summary (fileExists : Bool) (entries : List DLogEntry)
    (now : ℤ) (days : ℕ) : DSummary :=
  if !fileExists then
    { total_requests := 0, successful_requests := none, services := []
      success_rate := 0 }
  else
    let cutoff_time : ℤ := now - days * 24 * 60 * 60
    let inWindow := entries.filter (fun e => cutoff_time ≤ e.timestamp)
    let total_requests := inWindow.length
    let successful_requests := inWindow.countP (fun e => e.success)
    let services := inWindow.foldl update_service_stats []
    { total_requests := total_requests
      successful_requests := some successful_requests
      services := (services.map
        (fun svc => (svc.1, calculate_service_rates svc.2)))
      success_rate :=
        if 0 < total_requests then
          (successful_requests : ℚ) / (total_requests : ℚ) * 100
        else 0 }

end Delegator

/-! ## Theorems for the claims -/

/-- C7: cleanup resets the daily token counter (to zero, with `last_reset`
stamped to now) if and only if at least 24 hours have elapsed since
`last_reset`, and otherwise leaves both the counter and `last_reset`
unchanged — never a partial reset. -/
theorem c7_daily_reset_iff_24h_elapsed (data : UsageData) (now : ℤ) :
    (86400 ≤ now - data.last_reset →
      (GeminiQuotaTracker.cleanup_old_data data now).daily_tokens = 0 ∧
      (GeminiQuotaTracker.cleanup_old_data data now).last_reset = now) ∧
    (now - data.last_reset < 86400 →
      (GeminiQuotaTracker.cleanup_old_data data now).daily_tokens =
        data.daily_tokens ∧
      (GeminiQuotaTracker.cleanup_old_data data now).last_reset =
        data.last_reset) := by
  unfold GeminiQuotaTracker.cleanup_old_data
  rw [Int.fdiv_eq_ediv _ (by norm_num : (0 : ℤ) ≤ 86400)]
  constructor
  · intro h
    rw [if_pos (by omega)]
    exact ⟨rfl, rfl⟩
  · intro h
    rw [if_neg (by omega)]
    exact ⟨rfl, rfl⟩

/-- Witness for C7 at a concrete input: last reset at 0, cleanup at
time 86400 (exactly 24 h later) zeroes the daily counter. -/
theorem c7_daily_reset_iff_24h_elapsed_witness :
    (GeminiQuotaTracker.cleanup_old_data
      { requests := [], daily_tokens := 123, last_reset := 0 }
      86400).daily_tokens = 0 :=
  ((c7_daily_reset_iff_24h_elapsed
    { requests := [], daily_tokens := 123, last_reset := 0 } 86400).1
    (by decide)).1

/-- C9: a failed `record_request` appends the event — so it counts toward
`requests_last_minute` and `requests_today` — but leaves `daily_tokens`
unchanged; only a successful one adds `estimated_tokens` to
`daily_tokens`. -/
theorem c9_failed_request_counts_without_tokens (data : UsageData)
    (now : ℤ) (estimated_tokens : ℕ) (success : Bool) :
    (GeminiQuotaTracker.record_request data now estimated_tokens
        false).daily_tokens = data.daily_tokens ∧
    (GeminiQuotaTracker.record_request data now estimated_tokens
        true).daily_tokens = data.daily_tokens + estimated_tokens ∧
    (GeminiQuotaTracker.record_request data now estimated_tokens
        success).requests =
      data.requests ++ [{ timestamp := now, tokens := estimated_tokens
                          success := success }] ∧
    (GeminiQuotaTracker.get_current_usage
        (GeminiQuotaTracker.record_request data now estimated_tokens success)
        now).requests_today =
      (GeminiQuotaTracker.get_current_usage data now).requests_today + 1 ∧
    (GeminiQuotaTracker.get_current_usage
        (GeminiQuotaTracker.record_request data now estimated_tokens success)
        now).requests_last_minute =
      (GeminiQuotaTracker.get_current_usage data now).requests_last_minute
        + 1 := by
  refine ⟨by simp [GeminiQuotaTracker.record_request],
          by simp [GeminiQuotaTracker.record_request], rfl, ?_, ?_⟩
  · simp [GeminiQuotaTracker.record_request,
      GeminiQuotaTracker.get_current_usage]
  · simp only [GeminiQuotaTracker.record_request,
      GeminiQuotaTracker.get_current_usage, List.filter_append]
    rw [List.length_append]
    simp [show now - 60 < now by omega]

/-- C2 counterexample: with `requests_per_minute = 60` and exactly 59
requests falling in the last minute, `can_handle_task` returns
allowed = false, refuting the claim's "59 recent requests → allowed=true"
(which contradicts the deny condition the claim itself states). -/
theorem c2_fiftynine_requests_denied :
    (GeminiQuotaTracker.get_current_usage
      { requests := List.replicate 59
          { timestamp := 0, tokens := 0, success := true }
        daily_tokens := 0, last_reset := 0 } 0).requests_last_minute = 59 ∧
    (GeminiQuotaTracker.can_handle_task DEFAULT_LIMITS
      { requests := List.replicate 59
          { timestamp := 0, tokens := 0, success := true }
        daily_tokens := 0, last_reset := 0 } 0 1).1 = false := by
  constructor <;> decide

/-- C2 (amended): with `requests_per_minute = 60`, `can_handle_task`
denies with the "rate limit reached" reason whenever at least 59 requests
fall in the last minute (in particular at 59 and at 60); with exactly 58
recent requests it allows any `estimated_tokens` that fits the per-minute
and daily token budgets; and in general the rate-limit reason is produced
exactly when `requests_last_minute ≥ requests_per_minute − 1`. -/
theorem c2_rate_limit_deny_threshold (limits : QuotaLimits)
    (data : UsageData) (now : ℤ) (estimated_tokens : ℕ)
    (h60 : limits.requests_per_minute = 60) :
    (59 ≤ (GeminiQuotaTracker.get_current_usage data
        now).requests_last_minute →
      (GeminiQuotaTracker.can_handle_task limits data now
        estimated_tokens).1 = false ∧
      "Request rate limit reached - wait 1 minute" ∈
        (GeminiQuotaTracker.can_handle_task limits data now
          estimated_tokens).2) ∧
    ((GeminiQuotaTracker.get_current_usage data now).requests_last_minute
        = 58 →
      (GeminiQuotaTracker.get_current_usage data now).tokens_last_minute +
          estimated_tokens ≤ limits.tokens_per_minute →
      (GeminiQuotaTracker.get_current_usage data now).daily_tokens +
          estimated_tokens ≤ limits.tokens_per_day →
      (GeminiQuotaTracker.can_handle_task limits data now
        estimated_tokens).1 = true) ∧
    ("Request rate limit reached - wait 1 minute" ∈
        (GeminiQuotaTracker.can_handle_task limits data now
          estimated_tokens).2 ↔
      (limits.requests_per_minute : ℤ) - 1 ≤
        ((GeminiQuotaTracker.get_current_usage data
          now).requests_last_minute : ℤ)) := by
  unfold GeminiQuotaTracker.can_handle_task
  refine ⟨fun h => ?_, fun h58 htpm htpd => ?_, ?_⟩
  · rw [if_pos (by omega)]
    exact ⟨rfl, List.mem_singleton_self _⟩
  · rw [if_neg (by omega), if_neg (by omega), if_neg (by omega)]
  · constructor
    · intro hmem
      by_contra hlt
      rw [if_neg hlt] at hmem
      split_ifs at hmem <;> simp_all
    · intro h
      rw [if_pos h]
      exact List.mem_singleton_self _

/-- Witness for C2 (amended) at a concrete input: 58 zero-token requests in
the last minute under the default limits, a small task is allowed. -/
theorem c2_rate_limit_deny_threshold_witness :
    (GeminiQuotaTracker.can_handle_task DEFAULT_LIMITS
      { requests := List.replicate 58
          { timestamp := 0, tokens := 0, success := true }
        daily_tokens := 0, last_reset := 0 } 0 5).1 = true :=
  (c2_rate_limit_deny_threshold DEFAULT_LIMITS
    { requests := List.replicate 58
        { timestamp := 0, tokens := 0, success := true }
      daily_tokens := 0, last_reset := 0 } 0 5 rfl).2.1
    (by decide) (by decide) (by decide)

/-- C8: for a fixed usage state and limits, `can_handle_task` denial is
monotone in `estimated_tokens`: once denied for a smaller token count it
stays denied for any larger one. -/
theorem c8_monotone_denial (limits : QuotaLimits) (data : UsageData)
    (now : ℤ) (t1 t2 : ℕ) (hle : t1 ≤ t2)
    (hdeny : (GeminiQuotaTracker.can_handle_task limits data now t1).1 =
      false) :
    (GeminiQuotaTracker.can_handle_task limits data now t2).1 = false := by
  unfold GeminiQuotaTracker.can_handle_task at hdeny ⊢
  dsimp only at hdeny ⊢
  split_ifs at hdeny ⊢ <;> simp_all <;> omega

/-- Helper: whenever one of the two daily usage ratios is strictly above
the critical threshold, the final status override in `get_quota_status`
fires, and the daily-critical warning is appended last. -/
theorem quota_status_daily_critical (limits : QuotaLimits)
    (data : UsageData) (now : ℤ)
    (h : CRITICAL_THRESHOLD <
        ((GeminiQuotaTracker.get_current_usage data now).daily_tokens : ℚ) /
          (limits.tokens_per_day : ℚ) ∨
      CRITICAL_THRESHOLD <
        ((GeminiQuotaTracker.get_current_usage data now).requests_today : ℚ) /
          (limits.requests_per_day : ℚ)) :
    (GeminiQuotaTracker.get_quota_status limits data now).1 =
      "[CRITICAL] Daily Quota Exhausted" ∧
    GeminiQuotaTracker.Warning.criticalDaily ∈
      (GeminiQuotaTracker.get_quota_status limits data now).2 := by
  unfold GeminiQuotaTracker.get_quota_status
  dsimp only
  constructor
  · rw [if_pos h]
  · rw [if_pos h]
    exact List.mem_append_right _ (List.mem_singleton_self _)

/-- Helper: whenever the daily-token ratio is strictly above the warning
threshold, the formatted daily-token warning (carrying that ratio) is in
the warnings list of `get_quota_status`. -/
theorem quota_status_daily_tokens_warning (limits : QuotaLimits)
    (data : UsageData) (now : ℤ)
    (h : WARN_THRESHOLD <
        ((GeminiQuotaTracker.get_current_usage data now).daily_tokens : ℚ) /
          (limits.tokens_per_day : ℚ)) :
    GeminiQuotaTracker.Warning.dailyTokens
        (GeminiQuotaTracker.get_current_usage data now).daily_tokens
        limits.tokens_per_day
        (((GeminiQuotaTracker.get_current_usage data now).daily_tokens : ℚ) /
          (limits.tokens_per_day : ℚ)) ∈
      (GeminiQuotaTracker.get_quota_status limits data now).2 := by
  unfold GeminiQuotaTracker.get_quota_status
  dsimp only
  apply List.mem_append_left
  apply List.mem_append_left
  apply List.mem_append_left
  apply List.mem_append_right
  rw [if_pos h]
  exact List.mem_singleton_self _

/-- C6: with `tokens_per_day = 1000000` and `daily_tokens = 950001` (and
positive limits, so the source's divisions are defined), the status level
is the daily-critical one and the warnings hold a daily-token message whose
ratio is at least 0.95; in general, any daily ratio strictly above 0.95
forces the daily-critical classification with its
quota-nearly-exhausted message. -/
theorem c6_daily_token_critical (limits : QuotaLimits) (data : UsageData)
    (now : ℤ) (_hrpm : 0 < limits.requests_per_minute)
    (_htpm : 0 < limits.tokens_per_minute)
    (_hrpd : 0 < limits.requests_per_day)
    (htpd : limits.tokens_per_day = 1000000)
    (hdt : data.daily_tokens = 950001) :
    ((GeminiQuotaTracker.get_quota_status limits data now).1 =
        "[CRITICAL] Daily Quota Exhausted" ∧
      ∃ pct : ℚ, CRITICAL_THRESHOLD ≤ pct ∧
        GeminiQuotaTracker.Warning.dailyTokens data.daily_tokens
          limits.tokens_per_day pct ∈
          (GeminiQuotaTracker.get_quota_status limits data now).2) ∧
    (∀ (limits2 : QuotaLimits) (data2 : UsageData) (now2 : ℤ),
      0 < limits2.requests_per_minute → 0 < limits2.tokens_per_minute →
      0 < limits2.requests_per_day → 0 < limits2.tokens_per_day →
      (CRITICAL_THRESHOLD <
          (data2.daily_tokens : ℚ) / (limits2.tokens_per_day : ℚ) ∨
        CRITICAL_THRESHOLD <
          (data2.requests.length : ℚ) / (limits2.requests_per_day : ℚ)) →
      (GeminiQuotaTracker.get_quota_status limits2 data2 now2).1 =
        "[CRITICAL] Daily Quota Exhausted" ∧
      GeminiQuotaTracker.Warning.criticalDaily ∈
        (GeminiQuotaTracker.get_quota_status limits2 data2 now2).2) := by
  have hfield : (GeminiQuotaTracker.get_current_usage data now).daily_tokens
      = 950001 := hdt
  have h95 : CRITICAL_THRESHOLD <
      ((GeminiQuotaTracker.get_current_usage data now).daily_tokens : ℚ) /
        (limits.tokens_per_day : ℚ) := by
    rw [hfield, htpd]
    norm_num [CRITICAL_THRESHOLD]
  have h80 : WARN_THRESHOLD <
      ((GeminiQuotaTracker.get_current_usage data now).daily_tokens : ℚ) /
        (limits.tokens_per_day : ℚ) := by
    rw [hfield, htpd]
    norm_num [WARN_THRESHOLD]
  have hmem : GeminiQuotaTracker.Warning.dailyTokens data.daily_tokens
      limits.tokens_per_day
      ((data.daily_tokens : ℚ) / (limits.tokens_per_day : ℚ)) ∈
      (GeminiQuotaTracker.get_quota_status limits data now).2 :=
    quota_status_daily_tokens_warning limits data now h80
  have hle : CRITICAL_THRESHOLD ≤
      (data.daily_tokens : ℚ) / (limits.tokens_per_day : ℚ) := le_of_lt h95
  refine ⟨⟨(quota_status_daily_critical limits data now (Or.inl h95)).1,
      (data.daily_tokens : ℚ) / (limits.tokens_per_day : ℚ), hle, hmem⟩, ?_⟩
  intro limits2 data2 now2 _ _ _ _ h
  exact quota_status_daily_critical limits2 data2 now2 h

/-- Witness for C6 at a concrete input: the default limits with
950001 daily tokens classify as daily-critical. -/
theorem c6_daily_token_critical_witness :
    (GeminiQuotaTracker.get_quota_status DEFAULT_LIMITS
      { requests := [], daily_tokens := 950001, last_reset := 0 } 0).1 =
      "[CRITICAL] Daily Quota Exhausted" :=
  (c6_daily_token_critical DEFAULT_LIMITS
    { requests := [], daily_tokens := 950001, last_reset := 0 } 0
    (by decide) (by decide) (by decide) rfl rfl).1.1

/-- Witness for C8 at a concrete input: 40000 tokens already used in the
last minute exceed the per-minute token budget at 3 tokens, hence also
at 7. -/
theorem c8_monotone_denial_witness :
    (GeminiQuotaTracker.can_handle_task DEFAULT_LIMITS
      { requests := [{ timestamp := 0, tokens := 40000, success := true }]
        daily_tokens := 0, last_reset := 0 } 0 7).1 = false :=
  c8_monotone_denial DEFAULT_LIMITS
    { requests := [{ timestamp := 0, tokens := 40000, success := true }]
      daily_tokens := 0, last_reset := 0 } 0 3 7
    (by decide) (by decide)

/-- C5: over a window containing every logged event, the summary's
`total_requests` is the number of events and `successful_requests` counts
the successful ones — in both the logger's and the delegator's summaries —
and with no events (empty log, or log file absent) the totals are zero
without any failure. -/
theorem c5_summary_counts_all_events (records : List LogRecord) (now : ℤ)
    (hours : ℕ)
    (hwin : ∀ r ∈ records, now - (hours : ℤ) * 3600 ≤ r.timestamp) :
    (GeminiUsageLogger.get_usage_summary true records now
        hours).total_requests = records.length ∧
    (GeminiUsageLogger.get_usage_summary true records now
        hours).successful_requests =
      some (records.countP (fun r => r.success)) ∧
    (∀ (now2 : ℤ) (hours2 : ℕ),
      GeminiUsageLogger.get_usage_summary true [] now2 hours2 =
        { total_requests := 0, total_tokens := 0
          successful_requests := some 0, success_rate := 0
          hours_analyzed := some hours2 }) ∧
    (∀ (records2 : List LogRecord) (now2 : ℤ) (hours2 : ℕ),
      GeminiUsageLogger.get_usage_summary false records2 now2 hours2 =
        { total_requests := 0, total_tokens := 0
          successful_requests := none, success_rate := 0
          hours_analyzed := none }) ∧
    (∀ (entries : List DLogEntry) (now2 : ℤ) (days : ℕ),
      (∀ e ∈ entries, now2 - (days : ℤ) * 24 * 60 * 60 ≤ e.timestamp) →
      (Delegator.get_usage_summary true entries now2 days).total_requests =
        entries.length ∧
      (Delegator.get_usage_summary true entries now2
          days).successful_requests =
        some (entries.countP (fun e => e.success))) := by
  have hfil : records.filter
      (fun r => decide (now - (hours : ℤ) * 3600 ≤ r.timestamp)) = records :=
    List.filter_eq_self.mpr (fun a ha => by simpa using hwin a ha)
  refine ⟨?_, ?_, fun now2 hours2 => ?_, fun records2 now2 hours2 => rfl,
      fun entries now2 days hwin2 => ?_⟩
  · have h : (GeminiUsageLogger.get_usage_summary true records now
          hours).total_requests =
        (records.filter
          (fun r => decide (now - (hours : ℤ) * 3600 ≤ r.timestamp))).length :=
      rfl
    rw [h, hfil]
  · have h : (GeminiUsageLogger.get_usage_summary true records now
          hours).successful_requests =
        some ((records.filter
          (fun r => decide (now - (hours : ℤ) * 3600 ≤ r.timestamp))).countP
            (fun r => r.success)) := rfl
    rw [h, hfil]
  · simp [GeminiUsageLogger.get_usage_summary]
  · have hfil2 : entries.filter
        (fun e => decide (now2 - (days : ℤ) * 24 * 60 * 60 ≤ e.timestamp)) =
        entries :=
      List.filter_eq_self.mpr (fun a ha => by simpa using hwin2 a ha)
    constructor
    · have h : (Delegator.get_usage_summary true entries now2
            days).total_requests =
          (entries.filter (fun e =>
            decide (now2 - (days : ℤ) * 24 * 60 * 60 ≤ e.timestamp))).length :=
        rfl
      rw [h, hfil2]
    · have h : (Delegator.get_usage_summary true entries now2
            days).successful_requests =
          some ((entries.filter (fun e =>
            decide (now2 - (days : ℤ) * 24 * 60 * 60 ≤ e.timestamp))).countP
              (fun e => e.success)) := rfl
      rw [h, hfil2]

/-- Witness for C5 at a concrete input: two events (one success, one
failure) inside a one-hour window give totals 2 and 1. -/
theorem c5_summary_counts_all_events_witness :
    (GeminiUsageLogger.get_usage_summary true
      [{ timestamp := 0, command := "a", estimated_tokens := 4
         actual_tokens := 4, success := true, duration_seconds := none
         error := none, session_id := "session_0" },
       { timestamp := 10, command := "b", estimated_tokens := 8
         actual_tokens := 8, success := false, duration_seconds := none
         error := some "boom", session_id := "session_0" }] 100
      1).total_requests = 2 :=
  (c5_summary_counts_all_events
    [{ timestamp := 0, command := "a", estimated_tokens := 4
       actual_tokens := 4, success := true, duration_seconds := none
       error := none, session_id := "session_0" },
     { timestamp := 10, command := "b", estimated_tokens := 8
       actual_tokens := 8, success := false, duration_seconds := none
       error := some "boom", session_id := "session_0" }] 100 1
    (by decide)).1

/-- C10: the normal-completion branch of `execute` reports
`tokens_used = estimate_tokens(files, prompt)`, while the timeout branch
and the generic exception branch report `tokens_used = None`. -/
theorem c10_tokens_used_only_on_completion (log : List DLogEntry)
    (service : ServiceConfig) (service_name prompt : String)
    (files : List (String × PathInfo)) (options : DelegOptions)
    (timeout : ℕ) (now : ℤ) (duration : ℚ) (writeFails : Bool) :
    (∀ (stdout stderr : String) (returncode : ℤ),
      (Delegator.execute log service service_name prompt files options
        timeout (Delegator.ChildOutcome.completed stdout stderr returncode)
        now duration writeFails).1.tokens_used =
        some (Delegator.estimate_tokens files prompt)) ∧
    (Delegator.execute log service service_name prompt files options
      timeout Delegator.ChildOutcome.timedOut now duration
      writeFails).1.tokens_used = none ∧
    (∀ message : String,
      (Delegator.execute log service service_name prompt files options
        timeout (Delegator.ChildOutcome.raised message) now duration
        writeFails).1.tokens_used = none) :=
  ⟨fun _ _ _ => rfl, rfl, fun _ => rfl⟩

/-- C1 counterexample: a timed-out `execute` call does return
`success = false` with exit code 124, but performs zero usage-log appends
(the log is returned unchanged and `log_usage` is never called), refuting
the claim's "still performs exactly one UsageStore append". -/
theorem c1_timeout_performs_no_append :
    (Delegator.execute [] gemini_service "gemini" "hello" [] {} 300
      Delegator.ChildOutcome.timedOut 0 1 false).1.success = false ∧
    (Delegator.execute [] gemini_service "gemini" "hello" [] {} 300
      Delegator.ChildOutcome.timedOut 0 1 false).1.exit_code = 124 ∧
    (Delegator.execute [] gemini_service "gemini" "hello" [] {} 300
      Delegator.ChildOutcome.timedOut 0 1 false).2.1 = [] ∧
    (Delegator.execute [] gemini_service "gemini" "hello" [] {} 300
      Delegator.ChildOutcome.timedOut 0 1 false).2.2 = 0 :=
  ⟨rfl, rfl, rfl, rfl⟩

/-- C1 (amended): a timed-out `execute` returns `success=false` and exit
code 124 but performs no usage-log append; exactly one `log_usage` call —
appending exactly one entry when the write succeeds — happens on the
normal-completion branch, whatever the exit code, and none on the timeout
or exception branches. -/
theorem c1_append_exactly_on_completion (log : List DLogEntry)
    (service : ServiceConfig) (service_name prompt : String)
    (files : List (String × PathInfo)) (options : DelegOptions)
    (timeout : ℕ) (now : ℤ) (duration : ℚ) (writeFails : Bool) :
    ((Delegator.execute log service service_name prompt files options
        timeout Delegator.ChildOutcome.timedOut now duration
        writeFails).1.success = false ∧
      (Delegator.execute log service service_name prompt files options
        timeout Delegator.ChildOutcome.timedOut now duration
        writeFails).1.exit_code = 124 ∧
      (Delegator.execute log service service_name prompt files options
        timeout Delegator.ChildOutcome.timedOut now duration
        writeFails).2.1 = log ∧
      (Delegator.execute log service service_name prompt files options
        timeout Delegator.ChildOutcome.timedOut now duration
        writeFails).2.2 = 0) ∧
    (∀ (stdout stderr : String) (returncode : ℤ),
      (Delegator.execute log service service_name prompt files options
        timeout (Delegator.ChildOutcome.completed stdout stderr returncode)
        now duration writeFails).2.2 = 1 ∧
      ((Delegator.execute log service service_name prompt files options
        timeout (Delegator.ChildOutcome.completed stdout stderr returncode)
        now duration false).2.1).length = log.length + 1) ∧
    (∀ message : String,
      (Delegator.execute log service service_name prompt files options
        timeout (Delegator.ChildOutcome.raised message) now duration
        writeFails).2.1 = log ∧
      (Delegator.execute log service service_name prompt files options
        timeout (Delegator.ChildOutcome.raised message) now duration
        writeFails).2.2 = 0) := by
  refine ⟨⟨rfl, rfl, rfl, rfl⟩, fun stdout stderr returncode => ⟨rfl, ?_⟩,
      fun message => ⟨rfl, rfl⟩⟩
  simp [Delegator.execute, Delegator.log_usage]

/-- C3: the session-id gap rule evaluated on the code.  A 30-minute gap
reuses the stored session id and a 61-minute gap creates a fresh one, as
the claim says; but a gap of 24 h 30 min (88200 s) also reuses the stored
id, because the code compares `timedelta.seconds` — which discards whole
days — against the timeout, contradicting the claim (and the code's own
"within 1 hour" comment) for gaps longer than a day. -/
theorem c3_session_gap_drops_days :
    (GeminiUsageLogger.get_session_id
      (some { session_id := "session_0", start_time := 0
              last_activity := 0 }) 1800).1 = "session_0" ∧
    (GeminiUsageLogger.get_session_id
      (some { session_id := "session_0", start_time := 0
              last_activity := 0 }) 3660).1 = "session_3660" ∧
    (GeminiUsageLogger.get_session_id
      (some { session_id := "session_0", start_time := 0
              last_activity := 0 }) 88200).1 = "session_0" := by
  refine ⟨rfl, ?_, rfl⟩
  decide

/-- C4 counterexample: a file-write failure on the usage-log append inside
`GeminiUsageLogger.log_usage` propagates to the caller as an exception —
the call does not return normally, refuting the claim for this append
path. -/
theorem c4_logger_append_error_propagates :
    GeminiUsageLogger.log_usage { usageLog := [], session := none }
      { command := "cmd", estimated_tokens := 5, actual_tokens := none
        success := true, duration := none, error := none } 0 true false =
      Except.error "failed to write usage.jsonl" := rfl

/-- C4 (amended): `Delegator.log_usage` returns normally on every write
failure (the exception is caught and swallowed), and
`GeminiUsageLogger.log_usage` swallows persistence failures of the
session-stats update; but a write failure on the usage-log append itself
in `GeminiUsageLogger.log_usage` propagates to the caller. -/
theorem c4_swallowed_except_logger_append (log : List DLogEntry)
    (service_name : String) (command : List String)
    (result : ExecutionResult) (now : ℤ) (writeFails : Bool)
    (st : LoggerState) (entry : UsageEntry) (now2 : ℤ) (statsFails : Bool) :
    (∃ newLog, Delegator.log_usage log service_name command result now
      writeFails = Except.ok newLog) ∧
    (∃ st2, GeminiUsageLogger.log_usage st entry now2 false statsFails =
      Except.ok st2) ∧
    GeminiUsageLogger.log_usage st entry now2 true statsFails =
      Except.error "failed to write usage.jsonl" := by
  refine ⟨?_, ⟨_, rfl⟩, rfl⟩
  unfold Delegator.log_usage
  cases writeFails
  · exact ⟨_, rfl⟩
  · exact ⟨_, rfl⟩

end Conjure
